import Mathlib

/-!
Verification of the configuration resolver of the mitmproxy command-line
front end (`mitmproxy/tools/cmdline.py`).  The resolver
`get_common_options` turns a bag of raw parsed arguments into a validated
configuration dictionary, or raises an error.  The definitions below are a
shallow embedding of that function and of the small helpers it uses; the
theorems settle the specification claims about it.
-/

set_option maxRecDepth 4096

deriving instance DecidableEq for Except

/-- Errors that can abort resolution.  `optionsError` embeds
`exceptions.OptionsError`; `sizeParseError` embeds the `ValueError` raised
by the size parser when a size string is malformed and not caught. -/
inductive ResolveError where
  | optionsError (msg : String)
  | sizeParseError (msg : String)
deriving Repr, DecidableEq

def ResolveError.isOptionsError : ResolveError → Bool
  | ResolveError.optionsError _ => true
  | ResolveError.sizeParseError _ => false

/-- Python truthiness of an optional string: `None` and the empty string
are falsy, every other string is truthy. -/
def truthy : Option String → Bool
  | none => false
  | some s =>
    match s.toList with
    | [] => false
    | _ :: _ => true

def digitVal (c : Char) : Option Nat :=
  if c.isDigit then some (c.toNat - 48) else none

def digitsToNatAux : Nat → List Char → Option Nat
  | acc, [] => some acc
  | acc, c :: cs =>
    match digitVal c with
    | some d => digitsToNatAux (acc * 10 + d) cs
    | none => none

/-- Value of a non-empty all-digit character list, `none` otherwise. -/
def digitsToNat : List Char → Option Nat
  | [] => none
  | c :: cs => digitsToNatAux 0 (c :: cs)

def sizeMultiplier (c : Char) : Option Nat :=
  if c = 'k' ∨ c = 'K' then some 1024
  else if c = 'm' ∨ c = 'M' then some 1048576
  else if c = 'g' ∨ c = 'G' then some 1073741824
  else none

/-- Modelled from the spec: `human.parse_size` is not among the sources
(only `mitmproxy/tools/cmdline.py` is).  Per the spec, the input is a
string of digits optionally followed by one of k/m/g (case-insensitive),
interpreted as bytes times 1024^0, 1024^1 or 1024^2; malformed input
(non-numeric prefix, unknown suffix, empty string) fails with the size
parse error. -/
def parse_size (s : String) : Except String Nat :=
  let cs := s.toList
  match digitsToNat cs with
  | some n => Except.ok n
  | none =>
    match cs.getLast? with
    | none => Except.error "empty size specification"
    | some c =>
      match sizeMultiplier c, digitsToNat cs.dropLast with
      | some m, some n => Except.ok (n * m)
      | _, _ => Except.error ("invalid size specification: " ++ s)

/-- Split a character list at the first occurrence of the character
separating domain from path in a certificate spec; mirrors Python
`s.split("=", 1)`. -/
def splitFirstEq : List Char → Option (List Char × List Char)
  | [] => none
  | c :: cs =>
    if c = '=' then some ([], cs)
    else
      match splitFirstEq cs with
      | none => none
      | some (a, b) => some (c :: a, b)

/-- Whether a character list contains the separator character. -/
def hasEq : List Char → Bool
  | [] => false
  | c :: cs => if c = '=' then true else hasEq cs

/-- One certificate spec string, split on the first separator as in
`i.split("=", 1)`; with no separator the whole string is the path and the
domain pattern defaults to the wildcard. -/
def parseCertSpec (s : String) : String × String :=
  match splitFirstEq s.toList with
  | none => ("*", s)
  | some (a, b) => (String.mk a, String.mk b)

/-- A resolved size-typed value: either the raw (unparsed, falsy) argument
value passed through, or a parsed byte count. -/
inductive SizeVal where
  | raw (s : Option String)
  | bytes (n : Nat)
deriving Repr, DecidableEq

/-- The raw-argument bag, restricted to the fields `get_common_options`
transforms or validates.  Optional string fields default to `none`
(argparse default), booleans to `false`, except `upstream_cert` whose
registered default is `true`. -/
structure Args where
  stickycookie_filt : Option String := none
  stickyauth_filt : Option String := none
  stream_large_bodies : Option String := none
  streamfile : Option (String × String) := none
  rfile : Option String := none
  certs : List String := []
  body_size_limit : Option String := none
  transparent_proxy : Bool := false
  socks_proxy : Bool := false
  reverse_proxy : Option String := none
  upstream_proxy : Option String := none
  add_upstream_certs_to_client_chain : Bool := false
  upstream_cert : Bool := true
  quiet : Bool := false
  verbose : Option Nat := none
deriving Repr, DecidableEq

/-- Mode token the surface builder attaches to the write flag `--wfile`
(line 223). -/
def wfileMode : String := "w"

/-- Mode token the surface builder attaches to the append flag `--afile`
(line 228). -/
def afileMode : String := "a"

def transparentModeMsg : String :=
  "Transparent mode not supported on this platform."

def modeConflictMsg : String :=
  "Transparent, SOCKS5, reverse and upstream proxy mode " ++
  "are mutually exclusive. Read the docs on proxy modes " ++
  "to understand why."

def chainConflictMsg : String :=
  "The no-upstream-cert and add-upstream-certs-to-client-chain " ++
  "options are mutually exclusive. If no-upstream-cert is enabled " ++
  "then the upstream certificate is not retrieved before generating " ++
  "the client certificate chain."

def readWriteMsg (rfile : String) : String :=
  "Cannot use \x27" ++ rfile ++ "\x27 for both reading and writing flows. " ++
  "Are you looking for --afile?"

/-- The source raises this message without calling `.format`, so the
placeholder braces appear literally in the message. -/
def readAppendMsg : String :=
  "Cannot use \x27\x7b\x7d\x27 for both reading and appending flows. " ++
  "That would trigger an infinite loop."

def bodySizeLimitMsg (raw : String) : String :=
  "Invalid body size limit specification: " ++ raw

/-- Lines 28-30: the stream-large-bodies value is parsed when truthy; a
parse failure propagates unwrapped (there is no try/except here). -/
def resolveStreamLargeBodies (v : Option String) : Except ResolveError SizeVal :=
  if truthy v then
    match parse_size (v.getD "") with
    | Except.ok n => Except.ok (SizeVal.bytes n)
    | Except.error m => Except.error (ResolveError.sizeParseError m)
  else Except.ok (SizeVal.raw v)

/-- Lines 52-59: the body-size-limit value is parsed when truthy; a parse
failure is caught and re-raised as an OptionsError naming the raw value. -/
def resolveBodySizeLimit (v : Option String) : Except ResolveError SizeVal :=
  if truthy v then
    match parse_size (v.getD "") with
    | Except.ok n => Except.ok (SizeVal.bytes n)
    | Except.error _ =>
      Except.error (ResolveError.optionsError (bodySizeLimitMsg (v.getD "")))
  else Except.ok (SizeVal.raw v)

/-- Lines 32-42: the stream-file conflict check.  The write-mode branch
compares the stored mode token against "wb"; in that branch the raised
message formats `args.rfile`, which equals the stream-file path. -/
def checkStreamfileConflict (streamfile : Option (String × String))
    (rfile : Option String) : Option ResolveError :=
  match streamfile with
  | some (path, fmode) =>
    if rfile = some path then
      if fmode = "wb" then
        some (ResolveError.optionsError (readWriteMsg path))
      else
        some (ResolveError.optionsError readAppendMsg)
    else none
  | none => none

/-- Lines 61-87: proxy-mode establishment.  A counter is incremented for
each requested mode and the mode string and upstream server are
overwritten in source order (transparent, socks, reverse, upstream).  The
platform check sits inside the transparent branch and fires before
anything else observable, so it is hoisted to the front here.  The
platform capability `platform.original_addr` is not among the sources and
is modelled from the spec as a boolean capability flag. -/
def establishMode (platform_original_addr : Bool) (args : Args) :
    Except ResolveError (String × Option String) :=
  if args.transparent_proxy && !platform_original_addr then
    Except.error (ResolveError.optionsError transparentModeMsg)
  else
    let s1 : Nat × String × Option String :=
      if args.transparent_proxy then (1, ("transparent", none))
      else (0, ("regular", none))
    let s2 := if args.socks_proxy then (s1.1 + 1, ("socks5", s1.2.2)) else s1
    let s3 :=
      if truthy args.reverse_proxy then (s2.1 + 1, ("reverse", args.reverse_proxy))
      else s2
    let s4 :=
      if truthy args.upstream_proxy then (s3.1 + 1, ("upstream", args.upstream_proxy))
      else s3
    if 1 < s4.1 then Except.error (ResolveError.optionsError modeConflictMsg)
    else Except.ok s4.2

/-- The resolved configuration, restricted to the entries the resolver
derives or transforms (lines 99-162); untouched pass-through entries are
not modelled. -/
structure CommonOptions where
  stickycookie : Option String
  stickyauth : Option String
  stream_large_bodies : SizeVal
  streamfile : Option String
  streamfile_append : Bool
  verbosity : Option Nat
  body_size_limit : SizeVal
  certs : List (String × String)
  mode : String
  upstream_server : Option String
  upstream_cert : Bool
  add_upstream_certs_to_client_chain : Bool
deriving Repr, DecidableEq

/-- Shallow embedding of `get_common_options` (lines 20-162), with the
platform capability for original-destination-address recovery passed as a
boolean because the platform module is outside the sources. -/
def get_common_options (platform_original_addr : Bool) (args : Args) :
    Except ResolveError CommonOptions :=
  let stickycookie :=
    if truthy args.stickycookie_filt then args.stickycookie_filt else none
  let stickyauth :=
    if truthy args.stickyauth_filt then args.stickyauth_filt else none
  match resolveStreamLargeBodies args.stream_large_bodies with
  | Except.error e => Except.error e
  | Except.ok slb =>
    match checkStreamfileConflict args.streamfile args.rfile with
    | some e => Except.error e
    | none =>
      let certs := args.certs.map parseCertSpec
      match resolveBodySizeLimit args.body_size_limit with
      | Except.error e => Except.error e
      | Except.ok bsl =>
        match establishMode platform_original_addr args with
        | Except.error e => Except.error e
        | Except.ok (mode, upstream_server) =>
          if args.add_upstream_certs_to_client_chain && !args.upstream_cert then
            Except.error (ResolveError.optionsError chainConflictMsg)
          else
            let verbose := if args.quiet then some 0 else args.verbose
            Except.ok {
              stickycookie := stickycookie
              stickyauth := stickyauth
              stream_large_bodies := slb
              streamfile := (args.streamfile.map (fun x => x.1))
              streamfile_append :=
                match args.streamfile with
                | some (_, fmode) => fmode = "a"
                | none => false
              verbosity := verbose
              body_size_limit := bsl
              certs := certs
              mode := mode
              upstream_server := upstream_server
              upstream_cert := args.upstream_cert
              add_upstream_certs_to_client_chain :=
                args.add_upstream_certs_to_client_chain
            }

/-- Number of proxy-mode selectors requested in a raw-argument bag. -/
def modeCount (args : Args) : Nat :=
  (if args.transparent_proxy then 1 else 0)
  + (if args.socks_proxy then 1 else 0)
  + (if truthy args.reverse_proxy then 1 else 0)
  + (if truthy args.upstream_proxy then 1 else 0)

/-- The mode string the counter loop leaves behind: the last requested
selector in source order wins. -/
def expectedMode (args : Args) : String :=
  if truthy args.upstream_proxy then "upstream"
  else if truthy args.reverse_proxy then "reverse"
  else if args.socks_proxy then "socks5"
  else if args.transparent_proxy then "transparent"
  else "regular"

/-- The upstream server value the counter loop leaves behind. -/
def expectedUpstreamServer (args : Args) : Option String :=
  if truthy args.upstream_proxy then args.upstream_proxy
  else if truthy args.reverse_proxy then args.reverse_proxy
  else none

def isOkSize : Except ResolveError SizeVal → Bool
  | Except.ok _ => true
  | Except.error _ => false

/-- Whether resolution produced a configuration. -/
def resolutionSucceeds : Except ResolveError CommonOptions → Bool
  | Except.ok _ => true
  | Except.error _ => false

/-- Whether resolution aborted with an OptionsError specifically. -/
def failsWithOptionsError : Except ResolveError CommonOptions → Bool
  | Except.error (ResolveError.optionsError _) => true
  | _ => false

lemma establishMode_cases (ptf : Bool) (args : Args) :
    establishMode ptf args =
      (if args.transparent_proxy && !ptf then
        Except.error (ResolveError.optionsError transparentModeMsg)
      else if 1 < modeCount args then
        Except.error (ResolveError.optionsError modeConflictMsg)
      else Except.ok (expectedMode args, expectedUpstreamServer args)) := by
  unfold establishMode modeCount expectedMode expectedUpstreamServer
  cases h1 : args.transparent_proxy <;> cases h2 : args.socks_proxy <;>
    cases h3 : truthy args.reverse_proxy <;>
    cases h4 : truthy args.upstream_proxy <;> cases ptf <;> simp

lemma establishMode_ok (ptf : Bool) (args : Args)
    (hp : args.transparent_proxy = true → ptf = true)
    (hm : modeCount args ≤ 1) :
    establishMode ptf args =
      Except.ok (expectedMode args, expectedUpstreamServer args) := by
  rw [establishMode_cases]
  have h1 : (args.transparent_proxy && !ptf) = false := by
    cases h : args.transparent_proxy
    · simp
    · simp [hp h]
  rw [h1, if_neg (by simp), if_neg (by omega)]

/-- The record assembled on successful resolution, as a function of the
already-resolved intermediate values. -/
def assemble (args : Args) (slb bsl : SizeVal) (mo : String × Option String) :
    CommonOptions :=
  { stickycookie :=
      if truthy args.stickycookie_filt then args.stickycookie_filt else none
    stickyauth :=
      if truthy args.stickyauth_filt then args.stickyauth_filt else none
    stream_large_bodies := slb
    streamfile := args.streamfile.map (fun x => x.1)
    streamfile_append :=
      match args.streamfile with
      | some (_, fmode) => fmode = "a"
      | none => false
    verbosity := if args.quiet then some 0 else args.verbose
    body_size_limit := bsl
    certs := args.certs.map parseCertSpec
    mode := mo.1
    upstream_server := mo.2
    upstream_cert := args.upstream_cert
    add_upstream_certs_to_client_chain :=
      args.add_upstream_certs_to_client_chain }

lemma resolve_error_slb (ptf : Bool) (args : Args) (e : ResolveError)
    (h : resolveStreamLargeBodies args.stream_large_bodies = Except.error e) :
    get_common_options ptf args = Except.error e := by
  simp [get_common_options, h]

lemma resolve_error_conflict (ptf : Bool) (args : Args) (slb : SizeVal)
    (e : ResolveError)
    (h1 : resolveStreamLargeBodies args.stream_large_bodies = Except.ok slb)
    (h2 : checkStreamfileConflict args.streamfile args.rfile = some e) :
    get_common_options ptf args = Except.error e := by
  simp [get_common_options, h1, h2]

lemma resolve_error_bsl (ptf : Bool) (args : Args) (slb : SizeVal)
    (e : ResolveError)
    (h1 : resolveStreamLargeBodies args.stream_large_bodies = Except.ok slb)
    (h2 : checkStreamfileConflict args.streamfile args.rfile = none)
    (h3 : resolveBodySizeLimit args.body_size_limit = Except.error e) :
    get_common_options ptf args = Except.error e := by
  simp [get_common_options, h1, h2, h3]

lemma resolve_error_mode (ptf : Bool) (args : Args) (slb bsl : SizeVal)
    (e : ResolveError)
    (h1 : resolveStreamLargeBodies args.stream_large_bodies = Except.ok slb)
    (h2 : checkStreamfileConflict args.streamfile args.rfile = none)
    (h3 : resolveBodySizeLimit args.body_size_limit = Except.ok bsl)
    (h4 : establishMode ptf args = Except.error e) :
    get_common_options ptf args = Except.error e := by
  simp [get_common_options, h1, h2, h3, h4]

lemma resolve_error_chain (ptf : Bool) (args : Args) (slb bsl : SizeVal)
    (mo : String × Option String)
    (h1 : resolveStreamLargeBodies args.stream_large_bodies = Except.ok slb)
    (h2 : checkStreamfileConflict args.streamfile args.rfile = none)
    (h3 : resolveBodySizeLimit args.body_size_limit = Except.ok bsl)
    (h4 : establishMode ptf args = Except.ok mo)
    (h5 : (args.add_upstream_certs_to_client_chain && !args.upstream_cert) = true) :
    get_common_options ptf args
      = Except.error (ResolveError.optionsError chainConflictMsg) := by
  obtain ⟨m, u⟩ := mo
  simp [get_common_options, h1, h2, h3, h4, h5]

lemma resolve_ok_of (ptf : Bool) (args : Args) (slb bsl : SizeVal)
    (mo : String × Option String)
    (h1 : resolveStreamLargeBodies args.stream_large_bodies = Except.ok slb)
    (h2 : checkStreamfileConflict args.streamfile args.rfile = none)
    (h3 : resolveBodySizeLimit args.body_size_limit = Except.ok bsl)
    (h4 : establishMode ptf args = Except.ok mo)
    (h5 : (args.add_upstream_certs_to_client_chain && !args.upstream_cert) = false) :
    get_common_options ptf args = Except.ok (assemble args slb bsl mo) := by
  obtain ⟨m, u⟩ := mo
  simp [get_common_options, h1, h2, h3, h4, h5, assemble]

lemma resolve_ok_inv (ptf : Bool) (args : Args) (cfg : CommonOptions)
    (h : get_common_options ptf args = Except.ok cfg) :
    ∃ slb bsl mo,
      resolveStreamLargeBodies args.stream_large_bodies = Except.ok slb
      ∧ checkStreamfileConflict args.streamfile args.rfile = none
      ∧ resolveBodySizeLimit args.body_size_limit = Except.ok bsl
      ∧ establishMode ptf args = Except.ok mo
      ∧ (args.add_upstream_certs_to_client_chain && !args.upstream_cert) = false
      ∧ cfg = assemble args slb bsl mo := by
  rcases hslb : resolveStreamLargeBodies args.stream_large_bodies with e | slb
  · rw [resolve_error_slb ptf args e hslb] at h
    exact absurd h (by simp)
  rcases hc : checkStreamfileConflict args.streamfile args.rfile with _ | e
  case some =>
    rw [resolve_error_conflict ptf args slb e hslb hc] at h
    exact absurd h (by simp)
  rcases hbsl : resolveBodySizeLimit args.body_size_limit with e | bsl
  · rw [resolve_error_bsl ptf args slb e hslb hc hbsl] at h
    exact absurd h (by simp)
  rcases hmode : establishMode ptf args with e | mo
  · rw [resolve_error_mode ptf args slb bsl e hslb hc hbsl hmode] at h
    exact absurd h (by simp)
  cases hch : (args.add_upstream_certs_to_client_chain && !args.upstream_cert) with
  | true =>
    rw [resolve_error_chain ptf args slb bsl mo hslb hc hbsl hmode hch] at h
    exact absurd h (by simp)
  | false =>
    rw [resolve_ok_of ptf args slb bsl mo hslb hc hbsl hmode hch] at h
    injection h with h
    exact ⟨slb, bsl, mo, rfl, rfl, rfl, rfl, rfl, h.symm⟩

lemma splitFirstEq_of_hasEq_false (l : List Char) (h : hasEq l = false) :
    splitFirstEq l = none := by
  induction l with
  | nil => rfl
  | cons c cs ih =>
    unfold hasEq at h
    by_cases hc : c = '='
    · rw [if_pos hc] at h
      exact absurd h (by simp)
    · rw [if_neg hc] at h
      unfold splitFirstEq
      rw [if_neg hc, ih h]

lemma splitFirstEq_append_sep (a b : List Char) (h : hasEq a = false) :
    splitFirstEq (a ++ '=' :: b) = some (a, b) := by
  induction a with
  | nil => simp [splitFirstEq]
  | cons c cs ih =>
    unfold hasEq at h
    by_cases hc : c = '='
    · rw [if_pos hc] at h
      exact absurd h (by simp)
    · rw [if_neg hc] at h
      simp only [List.cons_append]
      unfold splitFirstEq
      rw [if_neg hc, ih h]

lemma stringMk_toList (s : String) : String.mk s.toList = s := by
  cases s
  rfl

lemma toList_append_sep (a b : String) :
    (a ++ "=" ++ b).toList = a.toList ++ '=' :: b.toList := by
  cases a
  cases b
  simp [String.toList, String.append]

def argsReadWriteSame : Args :=
  { rfile := some "flow.db", streamfile := some ("flow.db", wfileMode) }

/-- Claim C1: the claim says that giving the stream file in write mode with
the same path as the flow-read file fails with the "both reading and
writing" same-file message, while append mode fails with the distinct
"infinite loop" message naming the file.  The code instead compares the
stored mode token against "wb", a value the surface builder (which stores
"w" for write and "a" for append) never produces, so the write-mode
conflict raises the append-branch "infinite loop" message — which moreover
never names the file, because the format placeholder is left unformatted.
This theorem evaluates the resolver at the failing input. -/
theorem c1_writeModeSameFileRaisesAppendBranchError :
    get_common_options true argsReadWriteSame
      = Except.error (ResolveError.optionsError readAppendMsg)
    ∧ readAppendMsg ≠ readWriteMsg "flow.db"
    ∧ wfileMode ≠ "wb" := by decide

def argsStreamLargeBad : Args := { stream_large_bodies := some "x" }

/-- Claim C2, counterexample: with the stream-large-bodies option present
and malformed ("x"), resolution fails, but not with an OptionsError: the
size-parse failure propagates unwrapped, refuting the claim as stated. -/
theorem c2_streamLargeBodiesFailureIsNotOptionsError :
    resolutionSucceeds (get_common_options true argsStreamLargeBad) = false
    ∧ failsWithOptionsError (get_common_options true argsStreamLargeBad) = false := by
  decide

/-- Claim C2 (amended): when the stream-large-bodies option is present and
truthy (non-empty), a malformed value makes resolution fail with the size
parser's own error, not an OptionsError naming the option, and a
well-formed value is converted to the byte count given by the size
parser. -/
theorem c2_streamLargeBodiesResolution (ptf : Bool) (args : Args) (s : String)
    (hpres : args.stream_large_bodies = some s)
    (htr : truthy args.stream_large_bodies = true) :
    (∀ m, parse_size s = Except.error m →
      get_common_options ptf args = Except.error (ResolveError.sizeParseError m))
    ∧ (∀ n cfg, parse_size s = Except.ok n →
        get_common_options ptf args = Except.ok cfg →
        cfg.stream_large_bodies = SizeVal.bytes n) := by
  rw [hpres] at htr
  constructor
  · intro m hm
    apply resolve_error_slb
    simp [resolveStreamLargeBodies, hpres, htr, hm]
  · intro n cfg hn hcfg
    obtain ⟨slb, bsl, mo, h1, h2, h3, h4, h5, hcfg2⟩ :=
      resolve_ok_inv ptf args cfg hcfg
    have hs : slb = SizeVal.bytes n := by
      rw [hpres] at h1
      simp [resolveStreamLargeBodies, htr, hn] at h1
      exact h1.symm
    rw [hcfg2, hs]
    rfl

/-- Witness for the amended C2 theorem: a concrete malformed value fails
with the size parser's error. -/
theorem c2_streamLargeBodiesResolution_w :
    get_common_options true { stream_large_bodies := some "q" }
      = Except.error
          (ResolveError.sizeParseError ("invalid size specification: " ++ "q")) :=
  (c2_streamLargeBodiesResolution true { stream_large_bodies := some "q" } "q"
      rfl (by decide)).1 ("invalid size specification: " ++ "q") (by decide)

def argsTransSocks : Args := { transparent_proxy := true, socks_proxy := true }

/-- Claim C3, counterexample: with two modes requested (transparent and
socks5) on a platform without original-destination-address recovery,
resolution fails with the platform-support OptionsError, not with the
OptionsError naming all four modes as mutually exclusive, refuting the
claim as universally stated over raw-argument bags. -/
theorem c3_twoModesCanFailWithPlatformError :
    get_common_options false argsTransSocks
      = Except.error (ResolveError.optionsError transparentModeMsg)
    ∧ transparentModeMsg ≠ modeConflictMsg := by decide

/-- Claim C3 (amended): with the earlier rules passing and the transparent
platform check not firing (transparent not requested, or the platform
capability present), requesting more than one of the four proxy-mode
selectors fails resolution with the OptionsError naming all four as
mutually exclusive; requesting at most one (and satisfying the
certificate-chain precondition) succeeds with that mode selected, the
implicit mode being "regular" when none is requested. -/
theorem c3_proxyModeSelection (ptf : Bool) (args : Args)
    (h1 : isOkSize (resolveStreamLargeBodies args.stream_large_bodies) = true)
    (h2 : checkStreamfileConflict args.streamfile args.rfile = none)
    (h3 : isOkSize (resolveBodySizeLimit args.body_size_limit) = true)
    (hp : args.transparent_proxy = true → ptf = true) :
    (1 < modeCount args →
      get_common_options ptf args
        = Except.error (ResolveError.optionsError modeConflictMsg))
    ∧ (modeCount args ≤ 1 →
        (args.add_upstream_certs_to_client_chain && !args.upstream_cert) = false →
        ∃ cfg, get_common_options ptf args = Except.ok cfg
          ∧ cfg.mode = expectedMode args
          ∧ cfg.upstream_server = expectedUpstreamServer args) := by
  rcases hslb : resolveStreamLargeBodies args.stream_large_bodies with e | slb
  · rw [hslb] at h1
    exact absurd h1 (by simp [isOkSize])
  rcases hbsl : resolveBodySizeLimit args.body_size_limit with e | bsl
  · rw [hbsl] at h3
    exact absurd h3 (by simp [isOkSize])
  constructor
  · intro hm
    apply resolve_error_mode ptf args slb bsl _ hslb h2 hbsl
    rw [establishMode_cases]
    have hno : (args.transparent_proxy && !ptf) = false := by
      cases h : args.transparent_proxy
      · simp
      · simp [hp h]
    rw [hno, if_neg (by simp), if_pos hm]
  · intro hm hch
    refine ⟨assemble args slb bsl (expectedMode args, expectedUpstreamServer args),
      ?_, rfl, rfl⟩
    exact resolve_ok_of ptf args slb bsl _ hslb h2 hbsl
      (establishMode_ok ptf args hp hm) hch

/-- Witness for the amended C3 theorem: requesting only socks5 resolves to
the socks5 mode with no upstream server. -/
theorem c3_proxyModeSelection_w :
    ∃ cfg, get_common_options true { socks_proxy := true } = Except.ok cfg
      ∧ cfg.mode = "socks5" ∧ cfg.upstream_server = none :=
  (c3_proxyModeSelection true { socks_proxy := true } (by decide) (by decide)
      (by decide) (fun _ => rfl)).2 (by decide) (by decide)

/-- Claim C4: with the earlier rules passing and the proxy-mode rule not
firing, resolution fails with the certificate-chain OptionsError exactly
when add-upstream-certs-to-client-chain is enabled while
upstream-certificate retrieval is disabled; enabling the chain option with
retrieval left enabled does not trigger this failure and resolution
succeeds. -/
theorem c4_chainPrecondition (ptf : Bool) (args : Args)
    (h1 : isOkSize (resolveStreamLargeBodies args.stream_large_bodies) = true)
    (h2 : checkStreamfileConflict args.streamfile args.rfile = none)
    (h3 : isOkSize (resolveBodySizeLimit args.body_size_limit) = true)
    (hp : args.transparent_proxy = true → ptf = true)
    (hm : modeCount args ≤ 1) :
    (get_common_options ptf args
        = Except.error (ResolveError.optionsError chainConflictMsg)
      ↔ (args.add_upstream_certs_to_client_chain = true
          ∧ args.upstream_cert = false))
    ∧ (args.add_upstream_certs_to_client_chain = true →
        args.upstream_cert = true →
        ∃ cfg, get_common_options ptf args = Except.ok cfg) := by
  rcases hslb : resolveStreamLargeBodies args.stream_large_bodies with e | slb
  · rw [hslb] at h1
    exact absurd h1 (by simp [isOkSize])
  rcases hbsl : resolveBodySizeLimit args.body_size_limit with e | bsl
  · rw [hbsl] at h3
    exact absurd h3 (by simp [isOkSize])
  have hmode := establishMode_ok ptf args hp hm
  constructor
  · constructor
    · intro h
      by_contra hcontra
      have hch : (args.add_upstream_certs_to_client_chain
          && !args.upstream_cert) = false := by
        cases ha : args.add_upstream_certs_to_client_chain <;>
          cases hu : args.upstream_cert <;> simp_all
      rw [resolve_ok_of ptf args slb bsl _ hslb h2 hbsl hmode hch] at h
      exact absurd h (by simp)
    · rintro ⟨ha, hu⟩
      exact resolve_error_chain ptf args slb bsl _ hslb h2 hbsl hmode
        (by rw [ha, hu]; rfl)
  · intro ha hu
    exact ⟨_, resolve_ok_of ptf args slb bsl _ hslb h2 hbsl hmode
      (by rw [ha, hu]; rfl)⟩

def argsChainBad : Args :=
  { add_upstream_certs_to_client_chain := true, upstream_cert := false }

/-- Witness for the C4 theorem: enabling the chain option while disabling
upstream-certificate retrieval fails with the chain OptionsError. -/
theorem c4_chainPrecondition_w :
    get_common_options true argsChainBad
      = Except.error (ResolveError.optionsError chainConflictMsg) :=
  (c4_chainPrecondition true argsChainBad (by decide) (by decide) (by decide)
      (fun _ => rfl) (by decide)).1.mpr ⟨rfl, rfl⟩

def argsTwoViolations : Args :=
  { stream_large_bodies := some "zz", streamfile := some ("f", afileMode),
    rfile := some "f" }

/-- Claim C5, counterexample: this bag violates both the stream-large-bodies
rule and the (later) stream-file conflict rule; resolution aborts with the
error of the earliest violated rule, but that error is the size parser's
error rather than an OptionsError, refuting the claim that the single
abort error is always an OptionsError. -/
theorem c5_earliestErrorNeedNotBeOptionsError :
    resolutionSucceeds (get_common_options true argsTwoViolations) = false
    ∧ failsWithOptionsError (get_common_options true argsTwoViolations) = false
    ∧ checkStreamfileConflict argsTwoViolations.streamfile argsTwoViolations.rfile
        = some (ResolveError.optionsError readAppendMsg) := by decide

/-- Claim C5 (amended): resolution is fail-fast in the fixed source order
and aborts with the single error of the earliest violated rule: a
stream-large-bodies parse failure (the size parser's own error, not an
OptionsError) preempts everything later; then the stream-file conflict;
then the body-size-limit OptionsError; then the proxy-mode errors; then
the certificate-chain precondition; when no rule is violated, resolution
succeeds with the assembled configuration.  No multi-error report is
produced. -/
theorem c5_failFastOrdering (ptf : Bool) (args : Args) :
    (∀ e, resolveStreamLargeBodies args.stream_large_bodies = Except.error e →
      get_common_options ptf args = Except.error e)
    ∧ (∀ slb e,
        resolveStreamLargeBodies args.stream_large_bodies = Except.ok slb →
        checkStreamfileConflict args.streamfile args.rfile = some e →
        get_common_options ptf args = Except.error e)
    ∧ (∀ slb e,
        resolveStreamLargeBodies args.stream_large_bodies = Except.ok slb →
        checkStreamfileConflict args.streamfile args.rfile = none →
        resolveBodySizeLimit args.body_size_limit = Except.error e →
        get_common_options ptf args = Except.error e)
    ∧ (∀ slb bsl e,
        resolveStreamLargeBodies args.stream_large_bodies = Except.ok slb →
        checkStreamfileConflict args.streamfile args.rfile = none →
        resolveBodySizeLimit args.body_size_limit = Except.ok bsl →
        establishMode ptf args = Except.error e →
        get_common_options ptf args = Except.error e)
    ∧ (∀ slb bsl mo,
        resolveStreamLargeBodies args.stream_large_bodies = Except.ok slb →
        checkStreamfileConflict args.streamfile args.rfile = none →
        resolveBodySizeLimit args.body_size_limit = Except.ok bsl →
        establishMode ptf args = Except.ok mo →
        (args.add_upstream_certs_to_client_chain && !args.upstream_cert) = true →
        get_common_options ptf args
          = Except.error (ResolveError.optionsError chainConflictMsg))
    ∧ (∀ slb bsl mo,
        resolveStreamLargeBodies args.stream_large_bodies = Except.ok slb →
        checkStreamfileConflict args.streamfile args.rfile = none →
        resolveBodySizeLimit args.body_size_limit = Except.ok bsl →
        establishMode ptf args = Except.ok mo →
        (args.add_upstream_certs_to_client_chain && !args.upstream_cert) = false →
        get_common_options ptf args = Except.ok (assemble args slb bsl mo)) :=
  ⟨fun e h => resolve_error_slb ptf args e h,
   fun slb e h1 h2 => resolve_error_conflict ptf args slb e h1 h2,
   fun slb e h1 h2 h3 => resolve_error_bsl ptf args slb e h1 h2 h3,
   fun slb bsl e h1 h2 h3 h4 => resolve_error_mode ptf args slb bsl e h1 h2 h3 h4,
   fun slb bsl mo h1 h2 h3 h4 h5 =>
     resolve_error_chain ptf args slb bsl mo h1 h2 h3 h4 h5,
   fun slb bsl mo h1 h2 h3 h4 h5 =>
     resolve_ok_of ptf args slb bsl mo h1 h2 h3 h4 h5⟩

/-- Witness for the amended C5 theorem: at the double-violation input the
earliest rule (stream-large-bodies parsing) determines the abort error. -/
theorem c5_failFastOrdering_w :
    get_common_options true argsTwoViolations
      = Except.error
          (ResolveError.sizeParseError ("invalid size specification: " ++ "zz")) :=
  (c5_failFastOrdering true argsTwoViolations).1
    (ResolveError.sizeParseError ("invalid size specification: " ++ "zz"))
    (by decide)

/-- Claim C6: certificate normalization always succeeds (it is a total
map) and splits each raw spec string on the first separator: a string
without a separator yields the wildcard domain with the whole string as
path, and a string with a separator yields the part before the first
separator as domain pattern and the rest as path; on successful resolution
the certs list is the order- and multiplicity-preserving map of the raw
list, duplicates kept. -/
theorem c6_certNormalization (ptf : Bool) (args : Args) :
    (∀ cfg, get_common_options ptf args = Except.ok cfg →
      cfg.certs = args.certs.map parseCertSpec)
    ∧ (∀ s : String, hasEq s.toList = false → parseCertSpec s = ("*", s))
    ∧ (∀ a b : String, hasEq a.toList = false →
        parseCertSpec (a ++ "=" ++ b) = (a, b)) := by
  refine ⟨?_, ?_, ?_⟩
  · intro cfg h
    obtain ⟨slb, bsl, mo, hx1, hx2, hx3, hx4, hx5, hcfg⟩ :=
      resolve_ok_inv ptf args cfg h
    rw [hcfg]
    rfl
  · intro s h
    unfold parseCertSpec
    rw [splitFirstEq_of_hasEq_false s.toList h]
  · intro a b h
    unfold parseCertSpec
    rw [toList_append_sep a b, splitFirstEq_append_sep a.toList b.toList h]
    show (String.mk a.toList, String.mk b.toList) = (a, b)
    rw [stringMk_toList, stringMk_toList]

/-- Witness for the C6 theorem: the two example spec strings normalize as
claimed, and a successful resolution carries the mapped list. -/
theorem c6_certNormalization_w :
    parseCertSpec ("example.com" ++ "=" ++ "a.pem") = ("example.com", "a.pem")
    ∧ parseCertSpec "a.pem" = ("*", "a.pem") :=
  ⟨(c6_certNormalization true {}).2.2 "example.com" "a.pem" (by decide),
   (c6_certNormalization true {}).2.1 "a.pem" (by decide)⟩

/-- Claim C7: with the earlier rules passing, requesting transparent mode
on a platform without original-destination-address recovery fails
resolution with the distinct platform OptionsError; when transparent mode
is not requested the platform capability is never consulted, so the result
of resolution is the same whether or not the capability is present. -/
theorem c7_transparentPlatformCheck (ptf : Bool) (args : Args)
    (h1 : isOkSize (resolveStreamLargeBodies args.stream_large_bodies) = true)
    (h2 : checkStreamfileConflict args.streamfile args.rfile = none)
    (h3 : isOkSize (resolveBodySizeLimit args.body_size_limit) = true) :
    (args.transparent_proxy = true → ptf = false →
      get_common_options ptf args
        = Except.error (ResolveError.optionsError transparentModeMsg))
    ∧ (args.transparent_proxy = false →
        get_common_options true args = get_common_options false args) := by
  constructor
  · intro ht hptf
    rcases hslb : resolveStreamLargeBodies args.stream_large_bodies with e | slb
    · rw [hslb] at h1
      exact absurd h1 (by simp [isOkSize])
    rcases hbsl : resolveBodySizeLimit args.body_size_limit with e | bsl
    · rw [hbsl] at h3
      exact absurd h3 (by simp [isOkSize])
    apply resolve_error_mode ptf args slb bsl _ hslb h2 hbsl
    rw [establishMode_cases, ht, hptf]
    simp
  · intro hf
    have he : establishMode true args = establishMode false args := by
      rw [establishMode_cases, establishMode_cases, hf]
      simp
    simp only [get_common_options, he]

/-- Witness for the C7 theorem: transparent mode on an unsupporting
platform fails with the platform OptionsError. -/
theorem c7_transparentPlatformCheck_w :
    get_common_options false { transparent_proxy := true }
      = Except.error (ResolveError.optionsError transparentModeMsg) :=
  (c7_transparentPlatformCheck false { transparent_proxy := true }
      (by decide) (by decide) (by decide)).1 rfl rfl

/-- Claim C8: whenever resolution succeeds, quiet forces the resolved
verbosity to its minimum (zero) regardless of the supplied verbose value,
and without quiet the raw verbose value is passed through unchanged. -/
theorem c8_quietOverridesVerbosity (ptf : Bool) (args : Args)
    (cfg : CommonOptions) (h : get_common_options ptf args = Except.ok cfg) :
    (args.quiet = true → cfg.verbosity = some 0)
    ∧ (args.quiet = false → cfg.verbosity = args.verbose) := by
  obtain ⟨slb, bsl, mo, hx1, hx2, hx3, hx4, hx5, hcfg⟩ :=
    resolve_ok_inv ptf args cfg h
  subst hcfg
  constructor
  · intro hq
    simp [assemble, hq]
  · intro hq
    simp [assemble, hq]

def argsQuietVerbose : Args := { quiet := true, verbose := some 3 }

/-- Witness for the C8 theorem: quiet with the verbose flag supplied
resolves to minimum verbosity. -/
theorem c8_quietOverridesVerbosity_w :
    (assemble argsQuietVerbose (SizeVal.raw none) (SizeVal.raw none)
        ("regular", none)).verbosity = some 0 :=
  (c8_quietOverridesVerbosity true argsQuietVerbose
      (assemble argsQuietVerbose (SizeVal.raw none) (SizeVal.raw none)
        ("regular", none))
      (by decide)).1 rfl

def argsBodySizeEmpty : Args := { body_size_limit := some "" }

/-- Claim C9, counterexample: the empty string is a malformed size per the
size-parser contract, yet a present-but-empty body-size-limit value is
falsy and skips parsing entirely: resolution succeeds, refuting the claim
that every present malformed value fails with an OptionsError. -/
theorem c9_emptyBodySizeLimitAccepted :
    resolutionSucceeds (get_common_options true argsBodySizeEmpty) = true
    ∧ (parse_size "").isOk = false := by decide

/-- Claim C9 (amended): when the body-size-limit option is present and
truthy (non-empty), a malformed value fails resolution — given the earlier
rules pass — with the OptionsError naming the offending value, an error
distinct from the stream-large-bodies failure (which is a raw size-parse
error); a well-formed value is converted by the size-parser contract; an
empty value is falsy and skips the check. -/
theorem c9_bodySizeLimitResolution (ptf : Bool) (args : Args) (s : String)
    (hpres : args.body_size_limit = some s)
    (htr : truthy args.body_size_limit = true)
    (h1 : isOkSize (resolveStreamLargeBodies args.stream_large_bodies) = true)
    (h2 : checkStreamfileConflict args.streamfile args.rfile = none) :
    ((parse_size s).isOk = false →
      get_common_options ptf args
        = Except.error (ResolveError.optionsError (bodySizeLimitMsg s)))
    ∧ (∀ n cfg, parse_size s = Except.ok n →
        get_common_options ptf args = Except.ok cfg →
        cfg.body_size_limit = SizeVal.bytes n)
    ∧ (∀ m, ResolveError.optionsError (bodySizeLimitMsg s)
        ≠ ResolveError.sizeParseError m) := by
  rw [hpres] at htr
  refine ⟨?_, ?_, by simp⟩
  · intro hbad
    rcases hslb : resolveStreamLargeBodies args.stream_large_bodies with e | slb
    · rw [hslb] at h1
      exact absurd h1 (by simp [isOkSize])
    rcases hps : parse_size s with m | n
    · apply resolve_error_bsl ptf args slb _ hslb h2
      simp [resolveBodySizeLimit, hpres, htr, hps]
    · rw [hps] at hbad
      exact absurd hbad (by simp [Except.isOk, Except.toBool])
  · intro n cfg hn hcfg
    obtain ⟨slb, bsl, mo, hx1, hx2, hx3, hx4, hx5, hcfg2⟩ :=
      resolve_ok_inv ptf args cfg hcfg
    have hb : bsl = SizeVal.bytes n := by
      rw [hpres] at hx3
      simp [resolveBodySizeLimit, htr, hn] at hx3
      exact hx3.symm
    rw [hcfg2, hb]
    rfl

/-- Witness for the amended C9 theorem: a concrete malformed value fails
with the body-size-limit OptionsError naming the value. -/
theorem c9_bodySizeLimitResolution_w :
    get_common_options true { body_size_limit := some "3x" }
      = Except.error (ResolveError.optionsError (bodySizeLimitMsg "3x")) :=
  (c9_bodySizeLimitResolution true { body_size_limit := some "3x" } "3x"
      rfl (by decide) (by decide) (by decide)).1 (by decide)

/-- Claim C10: when transparent mode is requested on a platform without
original-destination-address recovery while more than one proxy mode is
requested overall (and the earlier rules pass), resolution fails with the
platform-support OptionsError, not with the mode-conflict OptionsError:
within the proxy-mode step the transparent platform check fires before the
exclusivity count is evaluated. -/
theorem c10_platformCheckPrecedesModeConflict (args : Args)
    (h1 : isOkSize (resolveStreamLargeBodies args.stream_large_bodies) = true)
    (h2 : checkStreamfileConflict args.streamfile args.rfile = none)
    (h3 : isOkSize (resolveBodySizeLimit args.body_size_limit) = true)
    (ht : args.transparent_proxy = true)
    (hm : 1 < modeCount args) :
    get_common_options false args
      = Except.error (ResolveError.optionsError transparentModeMsg)
    ∧ transparentModeMsg ≠ modeConflictMsg := by
  constructor
  · rcases hslb : resolveStreamLargeBodies args.stream_large_bodies with e | slb
    · rw [hslb] at h1
      exact absurd h1 (by simp [isOkSize])
    rcases hbsl : resolveBodySizeLimit args.body_size_limit with e | bsl
    · rw [hbsl] at h3
      exact absurd h3 (by simp [isOkSize])
    apply resolve_error_mode false args slb bsl _ hslb h2 hbsl
    rw [establishMode_cases, ht]
    simp
  · decide

def argsTransUpstream : Args :=
  { transparent_proxy := true, upstream_proxy := some "http://h" }

/-- Witness for the C10 theorem: transparent plus upstream on an
unsupporting platform fails with the platform OptionsError. -/
theorem c10_platformCheckPrecedesModeConflict_w :
    get_common_options false argsTransUpstream
      = Except.error (ResolveError.optionsError transparentModeMsg)
    ∧ transparentModeMsg ≠ modeConflictMsg :=
  c10_platformCheckPrecedesModeConflict argsTransUpstream
    (by decide) (by decide) (by decide) rfl (by decide)
